import Mathlib

/-!
# Verification of the necrotizing-fasciitis risk engine (`fascitis-app/app.py`)

Shallow embedding of the pure scoring core of the application:
`clamp`, `sigmoid`, `normalize_demo`, `calculate_demo`, `calculate_lrinec`,
`keywords_factor`, `combine_risk` and `risk_label`.

Python floats are modelled as exact rationals (`ℚ`); the transcendental
`sigmoid` is modelled over the reals with `Real.exp`.  The optional text
signal (`None` in Python) is modelled as `Option ℚ`, and Python truthiness
of the signal (`None` and `0` are falsy) is made explicit.
-/

namespace FascitisApp

/-- `clamp(value, min_value, max_value)` from `app.py`:
`max(min_value, min(value, max_value))`.  The Python defaults are
`min_value=0.0, max_value=1.0`; callers here pass all bounds explicitly. -/
def clamp (value lo hi : ℚ) : ℚ :=
  max lo (min value hi)

/-- `sigmoid(x) = 1 / (1 + exp(-x))` from `app.py`. -/
noncomputable def sigmoid (x : ℝ) : ℝ :=
  1 / (1 + Real.exp (-x))

/-- `normalize_demo(value, max_value)` from `app.py`: returns `0` when
`max_value <= 0`, otherwise `clamp(value / max_value, 0, 1)`. -/
def normalize_demo (value max_value : ℚ) : ℚ :=
  if max_value ≤ 0 then 0 else clamp (value / max_value) 0 1

/-- The weighted sum `z` computed inside `calculate_demo`:
normalized labs times the weight list `[0.4, 0.35, 0.25]`. -/
def calculate_demo_z (pcr wbc esr : ℚ) : ℚ :=
  let npcr := normalize_demo pcr 300
  let nwbc := normalize_demo wbc 40
  let nesr := normalize_demo esr 150
  let weights : List ℚ := [0.4, 0.35, 0.25]
  npcr * weights[0]! + nwbc * weights[1]! + nesr * weights[2]!

/-- `calculate_demo(pcr, wbc, esr)` from `app.py`: `sigmoid(3*z - 1.5)`. -/
noncomputable def calculate_demo (pcr wbc esr : ℚ) : ℝ :=
  sigmoid (3 * (calculate_demo_z pcr wbc esr : ℝ) - 1.5)

/-- The CRP contribution of `calculate_lrinec`: `+4` when `crp >= 150`. -/
def crp_points (crp : ℚ) : ℤ :=
  if 150 ≤ crp then 4 else 0

/-- The WBC contribution of `calculate_lrinec`:
`+1` when `15 <= wbc <= 25`, else `+2` when `wbc > 25`. -/
def wbc_points (wbc : ℚ) : ℤ :=
  if 15 ≤ wbc ∧ wbc ≤ 25 then 1 else if 25 < wbc then 2 else 0

/-- The hemoglobin contribution of `calculate_lrinec`:
`+1` when `11 <= hb <= 13.5`, else `+2` when `hb < 11`. -/
def hb_points (hb : ℚ) : ℤ :=
  if 11 ≤ hb ∧ hb ≤ 13.5 then 1 else if hb < 11 then 2 else 0

/-- The sodium contribution of `calculate_lrinec`: `+2` when `na < 135`. -/
def na_points (na : ℚ) : ℤ :=
  if na < 135 then 2 else 0

/-- The creatinine contribution of `calculate_lrinec`: `+2` when `creat > 1.6`. -/
def creat_points (creat : ℚ) : ℤ :=
  if 1.6 < creat then 2 else 0

/-- The glucose contribution of `calculate_lrinec`: `+1` when `glucose > 180`. -/
def glucose_points (glucose : ℚ) : ℤ :=
  if 180 < glucose then 1 else 0

/-- The integer LRINEC score accumulated by `calculate_lrinec`: the sum of the
six independent per-lab contributions (the Python code accumulates them with
successive `+=` on `score`). -/
def lrinec_score (crp wbc hb na creat glucose : ℚ) : ℤ :=
  crp_points crp + wbc_points wbc + hb_points hb + na_points na +
    creat_points creat + glucose_points glucose

/-- The level string chosen by `calculate_lrinec`:
`"Alto"` when `score >= 8`, `"Intermedio"` when `score >= 6`, else `"Bajo"`. -/
def lrinec_level (score : ℤ) : String :=
  if 8 ≤ score then "Alto" else if 6 ≤ score then "Intermedio" else "Bajo"

/-- `calculate_lrinec(crp, wbc, hb, na, creat, glucose)` from `app.py`:
returns the triple `(score, level, prob)` with
`prob = sigmoid((score - 6.5) / 1.5)`. -/
noncomputable def calculate_lrinec (crp wbc hb na creat glucose : ℚ) :
    ℤ × String × ℝ :=
  let score := lrinec_score crp wbc hb na creat glucose
  (score, lrinec_level score, sigmoid (((score : ℝ) - 6.5) / 1.5))

/-- Python `str.lower()` restricted to the alphabet the application uses:
ASCII letters plus the Spanish accented uppercase letters. -/
def pyLower (c : Char) : Char :=
  if 'A' ≤ c ∧ c ≤ 'Z' then Char.ofNat (c.toNat + 32)
  else if c = 'Á' then 'á'
  else if c = 'É' then 'é'
  else if c = 'Í' then 'í'
  else if c = 'Ó' then 'ó'
  else if c = 'Ú' then 'ú'
  else if c = 'Ñ' then 'ñ'
  else if c = 'Ü' then 'ü'
  else c

/-- `kw` matches at the head of `t` (every character of `kw` equals the
corresponding leading character of `t`). -/
def leadMatch : List Char → List Char → Bool
  | [], _ => true
  | _ :: _, [] => false
  | a :: as, b :: bs => a == b && leadMatch as bs

/-- Python's `kw in t` for strings: `kw` occurs as a contiguous substring
of `t` (the empty string occurs in every string). -/
def hasSub (kw : List Char) : List Char → Bool
  | [] => leadMatch kw []
  | c :: rest => leadMatch kw (c :: rest) || hasSub kw rest

/-- The fixed keyword list of `keywords_factor` in `app.py`. -/
def nf_keywords : List (List Char) :=
  ["dolor desproporcionado".data, "crepitación".data, "bullas".data,
   "necrosis".data, "progresión rápida".data, "sepsis".data,
   "hipotensión".data]

/-- `keywords_factor(text)` from `app.py`: lowercases the text, counts the
keywords that occur in it (`sum(1 for kw in keywords if kw in t)`, i.e. each
keyword contributes at most once), and returns `clamp(0.05 * hits, 0, 0.3)`. -/
def keywords_factor (text : List Char) : ℚ :=
  let t := text.map pyLower
  let hits : ℕ := nf_keywords.countP (fun kw => hasSub kw t)
  clamp (0.05 * hits) 0 0.3

/-- Number of positions of `t` at which `kw` matches: the occurrence count of
`kw` in `t` as a substring scan would find it. -/
def occCount (kw : List Char) : List Char → ℕ
  | [] => if leadMatch kw [] then 1 else 0
  | c :: rest => (if leadMatch kw (c :: rest) then 1 else 0) + occCount kw rest

/-- Modelled from the spec's words for the keyword variant (claim C4):
`matchCount` counts keyword *occurrences*, so multiple occurrences of the same
keyword each count once; factor `clamp(0.05 * matchCount, 0, 0.3)`.  This is
the claimed behaviour, to be compared against `keywords_factor`. -/
def keywords_factor_perOccurrence (text : List Char) : ℚ :=
  let t := text.map pyLower
  let hits : ℕ := (nf_keywords.map (fun kw => occCount kw t)).sum
  clamp (0.05 * hits) 0 0.3

/-- Python truthiness of the optional text factor: `None` and `0` are falsy. -/
def factorTruthy : Option ℚ → Bool
  | none => false
  | some t => t != 0

/-- `combine_risk(base_prob, text_factor, ai_active)` from `app.py`.
The first branch fires when `ai_active and text_factor is not None`;
the second when `text_factor` is truthy (present and non-zero). -/
def combine_risk (base_prob : ℚ) (text_factor : Option ℚ) (ai_active : Bool) : ℚ :=
  if ai_active && text_factor.isSome then
    clamp (0.7 * base_prob + 0.3 * text_factor.getD 0) 0 1
  else if factorTruthy text_factor then
    clamp (base_prob + text_factor.getD 0) 0 1
  else
    base_prob

/-- `risk_label(prob)` from `app.py`: `(level, color_class, color_hex)`;
`prob >= 0.6` is "Alto"/danger, `prob >= 0.3` "Intermedio"/warning,
otherwise "Bajo"/success. -/
def risk_label (prob : ℚ) : String × String × String :=
  if 0.6 ≤ prob then ("Alto", "danger", "#dc3545")
  else if 0.3 ≤ prob then ("Intermedio", "warning", "#ffc107")
  else ("Bajo", "success", "#198754")

/-! ## Basic lemmas about `clamp`, `sigmoid` and `normalize_demo` -/

lemma clamp_bounds (x lo hi : ℚ) (h : lo ≤ hi) : lo ≤ clamp x lo hi ∧ clamp x lo hi ≤ hi :=
  ⟨le_max_left _ _, max_le h (min_le_right _ _)⟩

lemma clamp_of_mem {x lo hi : ℚ} (h1 : lo ≤ x) (h2 : x ≤ hi) : clamp x lo hi = x := by
  unfold clamp
  rw [min_eq_left h2, max_eq_right h1]

lemma clamp_mono {x y : ℚ} (lo hi : ℚ) (h : x ≤ y) : clamp x lo hi ≤ clamp y lo hi :=
  max_le_max le_rfl (min_le_min h le_rfl)

lemma sigmoid_pos (x : ℝ) : 0 < sigmoid x := by
  unfold sigmoid
  positivity

lemma sigmoid_lt_one (x : ℝ) : sigmoid x < 1 := by
  unfold sigmoid
  rw [div_lt_one (by positivity)]
  linarith [Real.exp_pos (-x)]

lemma sigmoid_mono {x y : ℝ} (h : x ≤ y) : sigmoid x ≤ sigmoid y := by
  unfold sigmoid
  have hexp : Real.exp (-y) ≤ Real.exp (-x) := Real.exp_le_exp.mpr (by linarith)
  have h1 : (0:ℝ) < 1 + Real.exp (-y) := by positivity
  exact one_div_le_one_div_of_le h1 (by linarith)

lemma normalize_demo_of_nonpos {v c : ℚ} (h : c ≤ 0) : normalize_demo v c = 0 := by
  unfold normalize_demo
  rw [if_pos h]

lemma normalize_demo_of_pos {v c : ℚ} (h : 0 < c) : normalize_demo v c = clamp (v / c) 0 1 := by
  unfold normalize_demo
  rw [if_neg (not_le.mpr h)]

lemma normalize_demo_bounds (v c : ℚ) : 0 ≤ normalize_demo v c ∧ normalize_demo v c ≤ 1 := by
  unfold normalize_demo
  split_ifs
  · norm_num
  · exact clamp_bounds _ _ _ (by norm_num)

lemma normalize_demo_mono {x y : ℚ} (c : ℚ) (h : x ≤ y) :
    normalize_demo x c ≤ normalize_demo y c := by
  unfold normalize_demo
  split_ifs with hc
  · exact le_rfl
  · have hc' : (0:ℚ) < c := not_le.mp hc
    refine clamp_mono _ _ ?_
    rw [div_eq_mul_inv, div_eq_mul_inv]
    exact mul_le_mul_of_nonneg_right h (inv_nonneg.mpr hc'.le)

/-! ## Lemmas about the DEMO scorer -/

lemma calculate_demo_z_eq (p w e : ℚ) :
    calculate_demo_z p w e =
      normalize_demo p 300 * 0.4 + normalize_demo w 40 * 0.35 + normalize_demo e 150 * 0.25 :=
  rfl

lemma calculate_demo_z_bounds (p w e : ℚ) :
    0 ≤ calculate_demo_z p w e ∧ calculate_demo_z p w e ≤ 1 := by
  rw [calculate_demo_z_eq]
  obtain ⟨h1, h1'⟩ := normalize_demo_bounds p 300
  obtain ⟨h2, h2'⟩ := normalize_demo_bounds w 40
  obtain ⟨h3, h3'⟩ := normalize_demo_bounds e 150
  constructor <;> linarith

lemma calculate_demo_z_mono {p p' w w' e e' : ℚ} (hp : p ≤ p') (hw : w ≤ w') (he : e ≤ e') :
    calculate_demo_z p w e ≤ calculate_demo_z p' w' e' := by
  rw [calculate_demo_z_eq, calculate_demo_z_eq]
  have h1 := normalize_demo_mono 300 hp
  have h2 := normalize_demo_mono 40 hw
  have h3 := normalize_demo_mono 150 he
  linarith

lemma calculate_demo_le_of_z {p w e p' w' e' : ℚ}
    (h : calculate_demo_z p w e ≤ calculate_demo_z p' w' e') :
    calculate_demo p w e ≤ calculate_demo p' w' e' := by
  unfold calculate_demo
  refine sigmoid_mono ?_
  have hc : ((calculate_demo_z p w e : ℚ) : ℝ) ≤ ((calculate_demo_z p' w' e' : ℚ) : ℝ) := by
    exact_mod_cast h
  linarith

/-! ## Lemmas about the LRINEC scorer -/

lemma crp_points_of_ge {crp : ℚ} (h : 150 ≤ crp) : crp_points crp = 4 := by
  unfold crp_points
  rw [if_pos h]

lemma crp_points_of_lt {crp : ℚ} (h : crp < 150) : crp_points crp = 0 := by
  unfold crp_points
  rw [if_neg (not_le.mpr h)]

lemma wbc_points_mid {wbc : ℚ} (h1 : 15 ≤ wbc) (h2 : wbc ≤ 25) : wbc_points wbc = 1 := by
  unfold wbc_points
  rw [if_pos ⟨h1, h2⟩]

lemma wbc_points_high {wbc : ℚ} (h : 25 < wbc) : wbc_points wbc = 2 := by
  unfold wbc_points
  rw [if_neg (fun hc => absurd h (not_lt.mpr hc.2)), if_pos h]

lemma wbc_points_low {wbc : ℚ} (h : wbc < 15) : wbc_points wbc = 0 := by
  unfold wbc_points
  rw [if_neg (fun hc => absurd h (not_lt.mpr hc.1)), if_neg (by linarith)]

lemma hb_points_mid {hb : ℚ} (h1 : 11 ≤ hb) (h2 : hb ≤ 13.5) : hb_points hb = 1 := by
  unfold hb_points
  rw [if_pos ⟨h1, h2⟩]

lemma hb_points_low {hb : ℚ} (h : hb < 11) : hb_points hb = 2 := by
  unfold hb_points
  rw [if_neg (fun hc => absurd h (not_lt.mpr hc.1)), if_pos h]

lemma hb_points_high {hb : ℚ} (h : 13.5 < hb) : hb_points hb = 0 := by
  unfold hb_points
  rw [if_neg (fun hc => absurd h (not_lt.mpr hc.2)), if_neg (by linarith)]

lemma na_points_of_lt {na : ℚ} (h : na < 135) : na_points na = 2 := by
  unfold na_points
  rw [if_pos h]

lemma na_points_of_ge {na : ℚ} (h : 135 ≤ na) : na_points na = 0 := by
  unfold na_points
  rw [if_neg (not_lt.mpr h)]

lemma creat_points_of_gt {creat : ℚ} (h : 1.6 < creat) : creat_points creat = 2 := by
  unfold creat_points
  rw [if_pos h]

lemma creat_points_of_le {creat : ℚ} (h : creat ≤ 1.6) : creat_points creat = 0 := by
  unfold creat_points
  rw [if_neg (not_lt.mpr h)]

lemma glucose_points_of_gt {glucose : ℚ} (h : 180 < glucose) : glucose_points glucose = 1 := by
  unfold glucose_points
  rw [if_pos h]

lemma glucose_points_of_le {glucose : ℚ} (h : glucose ≤ 180) : glucose_points glucose = 0 := by
  unfold glucose_points
  rw [if_neg (not_lt.mpr h)]

lemma lrinec_level_high {s : ℤ} (h : 8 ≤ s) : lrinec_level s = "Alto" := by
  unfold lrinec_level
  rw [if_pos h]

lemma lrinec_level_mid {s : ℤ} (h6 : 6 ≤ s) (h8 : s < 8) : lrinec_level s = "Intermedio" := by
  unfold lrinec_level
  rw [if_neg (not_le.mpr h8), if_pos h6]

lemma lrinec_level_low {s : ℤ} (h : s < 6) : lrinec_level s = "Bajo" := by
  unfold lrinec_level
  rw [if_neg (not_le.mpr (by linarith)), if_neg (not_le.mpr h)]

lemma crp_points_bounds (crp : ℚ) : 0 ≤ crp_points crp ∧ crp_points crp ≤ 4 := by
  unfold crp_points
  split_ifs <;> norm_num

lemma wbc_points_bounds (wbc : ℚ) : 0 ≤ wbc_points wbc ∧ wbc_points wbc ≤ 2 := by
  unfold wbc_points
  split_ifs <;> norm_num

lemma hb_points_bounds (hb : ℚ) : 0 ≤ hb_points hb ∧ hb_points hb ≤ 2 := by
  unfold hb_points
  split_ifs <;> norm_num

lemma na_points_bounds (na : ℚ) : 0 ≤ na_points na ∧ na_points na ≤ 2 := by
  unfold na_points
  split_ifs <;> norm_num

lemma creat_points_bounds (creat : ℚ) : 0 ≤ creat_points creat ∧ creat_points creat ≤ 2 := by
  unfold creat_points
  split_ifs <;> norm_num

lemma glucose_points_bounds (glucose : ℚ) : 0 ≤ glucose_points glucose ∧ glucose_points glucose ≤ 1 := by
  unfold glucose_points
  split_ifs <;> norm_num

lemma lrinec_score_c1_input : lrinec_score 150 20 10 130 2 200 = 12 := by
  unfold lrinec_score
  rw [crp_points_of_ge (by norm_num), wbc_points_mid (by norm_num) (by norm_num),
    hb_points_low (by norm_num), na_points_of_lt (by norm_num),
    creat_points_of_gt (by norm_num), glucose_points_of_gt (by norm_num)]
  norm_num

lemma lrinec_score_max_input : lrinec_score 150 26 10 130 2 200 = 13 := by
  unfold lrinec_score
  rw [crp_points_of_ge (by norm_num), wbc_points_high (by norm_num),
    hb_points_low (by norm_num), na_points_of_lt (by norm_num),
    creat_points_of_gt (by norm_num), glucose_points_of_gt (by norm_num)]
  norm_num

/-! ## Claim theorems -/

/-- C1: `calculate_lrinec` accumulates points independently per lab exactly as
the table states (CRP>=150 gives +4; WBC in [15,25] gives +1, WBC>25 gives +2,
mutually exclusive; Hb in [11,13.5] gives +1, Hb<11 gives +2, mutually
exclusive; Na<135 gives +2; creatinine>1.6 gives +2; glucose>180 gives +1),
maps the total score to "Alto" (High) when score>=8, "Intermedio"
(Intermediate) when 6<=score<8, "Bajo" (Low) when score<6, and returns
probability `sigmoid((score - 6.5) / 1.5)`; the inputs
(150, 20, 10, 130, 2.0, 200) yield score 12 and category High. -/
theorem C1_lrinec_score_table (crp wbc hb na creat glucose : ℚ) :
    calculate_lrinec crp wbc hb na creat glucose =
      (lrinec_score crp wbc hb na creat glucose,
       lrinec_level (lrinec_score crp wbc hb na creat glucose),
       sigmoid (((lrinec_score crp wbc hb na creat glucose : ℝ) - 6.5) / 1.5)) ∧
    lrinec_score crp wbc hb na creat glucose =
      crp_points crp + wbc_points wbc + hb_points hb + na_points na +
        creat_points creat + glucose_points glucose ∧
    (150 ≤ crp → crp_points crp = 4) ∧
    (crp < 150 → crp_points crp = 0) ∧
    (15 ≤ wbc ∧ wbc ≤ 25 → wbc_points wbc = 1) ∧
    (25 < wbc → wbc_points wbc = 2) ∧
    (wbc < 15 → wbc_points wbc = 0) ∧
    (11 ≤ hb ∧ hb ≤ 13.5 → hb_points hb = 1) ∧
    (hb < 11 → hb_points hb = 2) ∧
    (13.5 < hb → hb_points hb = 0) ∧
    (na < 135 → na_points na = 2) ∧
    (135 ≤ na → na_points na = 0) ∧
    (1.6 < creat → creat_points creat = 2) ∧
    (creat ≤ 1.6 → creat_points creat = 0) ∧
    (180 < glucose → glucose_points glucose = 1) ∧
    (glucose ≤ 180 → glucose_points glucose = 0) ∧
    (8 ≤ lrinec_score crp wbc hb na creat glucose →
      lrinec_level (lrinec_score crp wbc hb na creat glucose) = "Alto") ∧
    (6 ≤ lrinec_score crp wbc hb na creat glucose ∧
        lrinec_score crp wbc hb na creat glucose < 8 →
      lrinec_level (lrinec_score crp wbc hb na creat glucose) = "Intermedio") ∧
    (lrinec_score crp wbc hb na creat glucose < 6 →
      lrinec_level (lrinec_score crp wbc hb na creat glucose) = "Bajo") ∧
    lrinec_score 150 20 10 130 2 200 = 12 ∧
    lrinec_level (lrinec_score 150 20 10 130 2 200) = "Alto" := by
  refine ⟨rfl, rfl, crp_points_of_ge, crp_points_of_lt,
    fun h => wbc_points_mid h.1 h.2, wbc_points_high, wbc_points_low,
    fun h => hb_points_mid h.1 h.2, hb_points_low, hb_points_high,
    na_points_of_lt, na_points_of_ge, creat_points_of_gt, creat_points_of_le,
    glucose_points_of_gt, glucose_points_of_le,
    lrinec_level_high, fun h => lrinec_level_mid h.1 h.2, lrinec_level_low,
    lrinec_score_c1_input, ?_⟩
  rw [lrinec_score_c1_input]
  exact lrinec_level_high (by norm_num)

/-- C1 witness: the theorem applied at the concrete input
(150, 20, 10, 130, 2, 200), discharging the per-lab hypotheses. -/
theorem C1_lrinec_score_table_witness :
    crp_points 150 = 4 ∧ wbc_points 20 = 1 ∧ hb_points 10 = 2 ∧
    na_points 130 = 2 ∧ creat_points 2 = 2 ∧ glucose_points 200 = 1 ∧
    lrinec_level (lrinec_score 150 20 10 130 2 200) = "Alto" := by
  obtain ⟨-, -, h3, -, h5, -, -, -, h9, -, h11, -, h13, -, h15, -, -, -, -, -, h21⟩ :=
    C1_lrinec_score_table 150 20 10 130 2 200
  exact ⟨h3 (by norm_num), h5 ⟨by norm_num, by norm_num⟩, h9 (by norm_num),
    h11 (by norm_num), h13 (by norm_num), h15 (by norm_num), h21⟩

/-- C2 counterexample: the non-negative input (150, 26, 10, 130, 2, 200)
produces LRINEC score 13, which is outside the claimed range [0, 10]. -/
theorem C2_score_range_counterexample :
    ((0:ℚ) ≤ 150 ∧ (0:ℚ) ≤ 26 ∧ (0:ℚ) ≤ 10 ∧ (0:ℚ) ≤ 130 ∧
      (0:ℚ) ≤ 2 ∧ (0:ℚ) ≤ 200) ∧
    lrinec_score 150 26 10 130 2 200 = 13 ∧
    ¬ lrinec_score 150 26 10 130 2 200 ≤ 10 := by
  refine ⟨by norm_num, lrinec_score_max_input, ?_⟩
  rw [lrinec_score_max_input]
  norm_num

/-- C2 amended: for every input tuple the integer LRINEC score lies in
[0, 13] (4 + 2 + 2 + 2 + 2 + 1 = 13 is the attainable maximum, not 10). -/
theorem C2_score_range_amended (crp wbc hb na creat glucose : ℚ) :
    0 ≤ lrinec_score crp wbc hb na creat glucose ∧
    lrinec_score crp wbc hb na creat glucose ≤ 13 := by
  unfold lrinec_score
  obtain ⟨a1, a2⟩ := crp_points_bounds crp
  obtain ⟨b1, b2⟩ := wbc_points_bounds wbc
  obtain ⟨c1, c2⟩ := hb_points_bounds hb
  obtain ⟨d1, d2⟩ := na_points_bounds na
  obtain ⟨e1, e2⟩ := creat_points_bounds creat
  obtain ⟨f1, f2⟩ := glucose_points_bounds glucose
  omega

/-- C3: `combine_risk` returns `clamp(0.7*base + 0.3*t, 0, 1)` when the
external variant is active and the signal is present, `clamp(base + t, 0, 1)`
when the signal is present and non-zero (external inactive), and the base
unchanged otherwise; concretely `combine_risk 0.5 (some 0.2) true = 0.41`,
`combine_risk 0.5 (some 0.2) false = 0.7`, `combine_risk 0.9 none false = 0.9`. -/
theorem C3_combine_risk_cases (b t : ℚ) :
    combine_risk b (some t) true = clamp (0.7 * b + 0.3 * t) 0 1 ∧
    (t ≠ 0 → combine_risk b (some t) false = clamp (b + t) 0 1) ∧
    combine_risk b (some 0) false = b ∧
    combine_risk b none true = b ∧
    combine_risk b none false = b ∧
    combine_risk 0.5 (some 0.2) true = 0.41 ∧
    combine_risk 0.5 (some 0.2) false = 0.7 ∧
    combine_risk 0.9 none false = 0.9 := by
  have hkw : ∀ (b' t' : ℚ), t' ≠ 0 →
      combine_risk b' (some t') false = clamp (b' + t') 0 1 := by
    intro b' t' h
    simp [combine_risk, factorTruthy, h]
  refine ⟨rfl, hkw b t, ?_, rfl, rfl, ?_, ?_, rfl⟩
  · simp [combine_risk, factorTruthy]
  · have h0 : combine_risk 0.5 (some 0.2) true = clamp (0.7 * 0.5 + 0.3 * 0.2) 0 1 := rfl
    have h1 : (0.7:ℚ) * 0.5 + 0.3 * 0.2 = 0.41 := by norm_num
    rw [h0, h1, clamp_of_mem (by norm_num) (by norm_num)]
  · have h0 := hkw 0.5 0.2 (by norm_num)
    have h1 : (0.5:ℚ) + 0.2 = 0.7 := by norm_num
    rw [h0, h1, clamp_of_mem (by norm_num) (by norm_num)]

/-- C3 witness: the keyword branch of the theorem applied at
base 0.25 and signal 0.5. -/
theorem C3_combine_risk_cases_witness :
    combine_risk 0.25 (some 0.5) false = clamp (0.25 + 0.5) 0 1 :=
  (C3_combine_risk_cases 0.25 0.5).2.1 (by norm_num)

lemma keywords_factor_eq_count (text : List Char) :
    keywords_factor text =
      clamp (0.05 * (nf_keywords.countP fun kw => hasSub kw (text.map pyLower) : ℕ)) 0 0.3 :=
  rfl

lemma keywords_factor_perOccurrence_eq_count (text : List Char) :
    keywords_factor_perOccurrence text =
      clamp (0.05 * ((nf_keywords.map fun kw => occCount kw (text.map pyLower)).sum : ℕ)) 0 0.3 :=
  rfl

/-- C4 counterexample: in the text "sepsis sepsis" the keyword "sepsis" occurs
twice, so the claimed per-occurrence count gives factor 0.10, but
`keywords_factor` counts each keyword at most once (`kw in t` membership) and
returns 0.05. -/
theorem C4_keywords_occurrences_counterexample :
    keywords_factor ("sepsis sepsis".data) = 0.05 ∧
    keywords_factor_perOccurrence ("sepsis sepsis".data) = 0.1 ∧
    keywords_factor ("sepsis sepsis".data) ≠
      keywords_factor_perOccurrence ("sepsis sepsis".data) := by
  have hhits : (nf_keywords.countP fun kw =>
      hasSub kw (("sepsis sepsis".data).map pyLower)) = 1 := by decide
  have hocc : ((nf_keywords.map fun kw =>
      occCount kw (("sepsis sepsis".data).map pyLower)).sum) = 2 := by decide
  have e1 : keywords_factor ("sepsis sepsis".data) = 0.05 := by
    rw [keywords_factor_eq_count, hhits,
      show (0.05:ℚ) * ((1:ℕ):ℚ) = 0.05 by norm_num,
      clamp_of_mem (by norm_num) (by norm_num)]
  have e2 : keywords_factor_perOccurrence ("sepsis sepsis".data) = 0.1 := by
    rw [keywords_factor_perOccurrence_eq_count, hocc,
      show (0.05:ℚ) * ((2:ℕ):ℚ) = 0.1 by norm_num,
      clamp_of_mem (by norm_num) (by norm_num)]
  refine ⟨e1, e2, ?_⟩
  rw [e1, e2]
  norm_num

/-- C4 amended: the keyword variant returns
`clamp(0.05 * matchCount, 0, 0.3)` where `matchCount` counts the keywords of
the fixed seven-keyword list that occur (case-insensitively, as substrings)
in the text, each keyword counting at most once regardless of how many times
it occurs; a text with exactly two distinct keyword hits yields factor 0.10. -/
theorem C4_keywords_membership_amended (text : List Char) :
    keywords_factor text =
      clamp (0.05 * (nf_keywords.countP fun kw => hasSub kw (text.map pyLower) : ℕ)) 0 0.3 ∧
    0 ≤ keywords_factor text ∧ keywords_factor text ≤ 0.3 ∧
    keywords_factor ("sepsis sepsis".data) = keywords_factor ("sepsis".data) ∧
    keywords_factor ("hay sepsis y bullas".data) = 0.1 ∧
    keywords_factor ("hay SEPSIS y BULLAS".data) = 0.1 := by
  have heval : ∀ (t : List Char) (n : ℕ),
      (nf_keywords.countP fun kw => hasSub kw (t.map pyLower)) = n →
      keywords_factor t = clamp (0.05 * (n : ℚ)) 0 0.3 := by
    intro t n hn
    rw [keywords_factor_eq_count, hn]
  refine ⟨rfl, ?_, ?_, ?_, ?_, ?_⟩
  · exact (clamp_bounds _ _ _ (by norm_num)).1
  · exact (clamp_bounds _ _ _ (by norm_num)).2
  · rw [heval ("sepsis sepsis".data) 1 (by decide), heval ("sepsis".data) 1 (by decide)]
  · rw [heval ("hay sepsis y bullas".data) 2 (by decide),
      show (0.05:ℚ) * ((2:ℕ):ℚ) = 0.1 by norm_num,
      clamp_of_mem (by norm_num) (by norm_num)]
  · rw [heval ("hay SEPSIS y BULLAS".data) 2 (by decide),
      show (0.05:ℚ) * ((2:ℕ):ℚ) = 0.1 by norm_num,
      clamp_of_mem (by norm_num) (by norm_num)]

lemma risk_label_high {p : ℚ} (h : 0.6 ≤ p) :
    risk_label p = ("Alto", "danger", "#dc3545") := by
  unfold risk_label
  rw [if_pos h]

lemma risk_label_mid {p : ℚ} (h1 : 0.3 ≤ p) (h2 : p < 0.6) :
    risk_label p = ("Intermedio", "warning", "#ffc107") := by
  unfold risk_label
  rw [if_neg (not_le.mpr h2), if_pos h1]

lemma risk_label_low {p : ℚ} (h : p < 0.3) :
    risk_label p = ("Bajo", "success", "#198754") := by
  unfold risk_label
  rw [if_neg (not_le.mpr (by linarith)), if_neg (not_le.mpr h)]

/-- C5: `risk_label` returns ("Alto", "danger", "#dc3545") when the
probability is at least 0.6, ("Intermedio", "warning", "#ffc107") when it is
in [0.3, 0.6), and ("Bajo", "success", "#198754") otherwise, with exact
boundary inclusivity at 0.6 and 0.3. -/
theorem C5_risk_label_boundaries (p : ℚ) :
    (0.6 ≤ p → risk_label p = ("Alto", "danger", "#dc3545")) ∧
    (0.3 ≤ p ∧ p < 0.6 → risk_label p = ("Intermedio", "warning", "#ffc107")) ∧
    (p < 0.3 → risk_label p = ("Bajo", "success", "#198754")) ∧
    risk_label 0.6 = ("Alto", "danger", "#dc3545") ∧
    risk_label 0.599999 = ("Intermedio", "warning", "#ffc107") ∧
    risk_label 0.3 = ("Intermedio", "warning", "#ffc107") ∧
    risk_label 0.29999 = ("Bajo", "success", "#198754") :=
  ⟨risk_label_high, fun h => risk_label_mid h.1 h.2, risk_label_low,
    risk_label_high (by norm_num), risk_label_mid (by norm_num) (by norm_num),
    risk_label_mid (by norm_num) (by norm_num), risk_label_low (by norm_num)⟩

/-- C5 witness: the theorem applied at probability 0.75. -/
theorem C5_risk_label_boundaries_witness :
    risk_label 0.75 = ("Alto", "danger", "#dc3545") :=
  (C5_risk_label_boundaries 0.75).1 (by norm_num)

/-- C6: `calculate_demo` equals `sigmoid(3*z - 1.5)` with
`z = 0.4*n_pcr + 0.35*n_wbc + 0.25*n_esr`, the inputs normalized against
ceilings 300, 40 and 150 respectively, and the result lies in `[0, 1]`
(it is total over all rational inputs, so it never fails). -/
theorem C6_demo_score_formula (p w e : ℚ) :
    calculate_demo p w e =
      sigmoid (3 * ((0.4 * normalize_demo p 300 + 0.35 * normalize_demo w 40 +
        0.25 * normalize_demo e 150 : ℚ) : ℝ) - 1.5) ∧
    0 ≤ calculate_demo p w e ∧ calculate_demo p w e ≤ 1 := by
  have hz : calculate_demo_z p w e =
      0.4 * normalize_demo p 300 + 0.35 * normalize_demo w 40 +
        0.25 * normalize_demo e 150 := by
    rw [calculate_demo_z_eq]
    ring
  refine ⟨?_, ?_, ?_⟩
  · unfold calculate_demo
    rw [hz]
  · exact (sigmoid_pos _).le
  · exact (sigmoid_lt_one _).le

/-- C7: `normalize_demo` returns 0 when the ceiling is non-positive and
`clamp(value/ceiling, 0, 1)` otherwise; hence it maps any non-negative value
into `[0, 1]`, returns 0 for ceiling 0, and is total. -/
theorem C7_normalize_spec (v c : ℚ) :
    (c ≤ 0 → normalize_demo v c = 0) ∧
    (0 < c → normalize_demo v c = clamp (v / c) 0 1) ∧
    (0 ≤ v → 0 ≤ normalize_demo v c ∧ normalize_demo v c ≤ 1) ∧
    normalize_demo v 0 = 0 :=
  ⟨fun h => normalize_demo_of_nonpos h,
   fun h => normalize_demo_of_pos h,
   fun _ => normalize_demo_bounds v c,
   normalize_demo_of_nonpos le_rfl⟩

/-- C7 witness: the theorem applied at value 5 with ceilings 2 and 0. -/
theorem C7_normalize_spec_witness :
    normalize_demo 5 0 = 0 ∧ normalize_demo 5 2 = clamp (5 / 2) 0 1 ∧
    0 ≤ normalize_demo 5 2 ∧ normalize_demo 5 2 ≤ 1 := by
  have h := C7_normalize_spec 5 2
  exact ⟨(C7_normalize_spec 5 0).2.2.2, h.2.1 (by norm_num),
    (h.2.2.1 (by norm_num)).1, (h.2.2.1 (by norm_num)).2⟩

/-- C8: `calculate_demo` is monotonic non-decreasing in each of its three
arguments independently, holding the other two fixed. -/
theorem C8_demo_monotone (p p' w w' e e' : ℚ) :
    (p ≤ p' → calculate_demo p w e ≤ calculate_demo p' w e) ∧
    (w ≤ w' → calculate_demo p w e ≤ calculate_demo p w' e) ∧
    (e ≤ e' → calculate_demo p w e ≤ calculate_demo p w e') :=
  ⟨fun h => calculate_demo_le_of_z (calculate_demo_z_mono h le_rfl le_rfl),
   fun h => calculate_demo_le_of_z (calculate_demo_z_mono le_rfl h le_rfl),
   fun h => calculate_demo_le_of_z (calculate_demo_z_mono le_rfl le_rfl h)⟩

/-- C8 witness: the theorem applied in the first argument at 10 ≤ 50. -/
theorem C8_demo_monotone_witness :
    calculate_demo 10 20 30 ≤ calculate_demo 50 20 30 :=
  (C8_demo_monotone 10 50 20 20 30 30).1 (by norm_num)

/-- C9: the weighted sum `z` always lies in `[0, 1]`, so `calculate_demo` is
bounded within `[sigmoid(-1.5), sigmoid(1.5)]`, an interval strictly inside
`(0, 1)`: the DEMO model can never report a probability below
`sigmoid(-1.5)`, even for all-zero labs. -/
theorem C9_demo_bounded_away (p w e : ℚ) :
    0 ≤ calculate_demo_z p w e ∧ calculate_demo_z p w e ≤ 1 ∧
    sigmoid (-1.5) ≤ calculate_demo p w e ∧
    calculate_demo p w e ≤ sigmoid 1.5 ∧
    0 < sigmoid (-1.5) ∧ sigmoid 1.5 < 1 := by
  obtain ⟨hz0, hz1⟩ := calculate_demo_z_bounds p w e
  have hz0' : (0:ℝ) ≤ (calculate_demo_z p w e : ℝ) := by exact_mod_cast hz0
  have hz1' : ((calculate_demo_z p w e : ℚ) : ℝ) ≤ 1 := by exact_mod_cast hz1
  refine ⟨hz0, hz1, ?_, ?_, sigmoid_pos _, sigmoid_lt_one _⟩
  · unfold calculate_demo
    exact sigmoid_mono (by linarith)
  · unfold calculate_demo
    exact sigmoid_mono (by linarith)

/-- C10: with the external variant active and a present-but-zero signal,
`combine_risk` takes the blend branch and returns `clamp(0.7*base, 0, 1)`,
strictly below the base for any base in `(0, 1]`; in the keyword path
(external inactive, non-negative or absent signal) `combine_risk` never
returns less than the base probability. -/
theorem C10_zero_signal_blend (b : ℚ) :
    combine_risk b (some 0) true = clamp (0.7 * b) 0 1 ∧
    (0 < b → b ≤ 1 → combine_risk b (some 0) true < b) ∧
    (∀ tf : Option ℚ, (∀ t, tf = some t → 0 ≤ t) → 0 ≤ b → b ≤ 1 →
      b ≤ combine_risk b tf false) := by
  have hblend : combine_risk b (some 0) true = clamp (0.7 * b) 0 1 := by
    have h0 : combine_risk b (some 0) true = clamp (0.7 * b + 0.3 * 0) 0 1 := rfl
    rw [h0, show (0.7:ℚ) * b + 0.3 * 0 = 0.7 * b by ring]
  refine ⟨hblend, ?_, ?_⟩
  · intro h1 h2
    rw [hblend, clamp_of_mem (by linarith) (by linarith)]
    linarith
  · intro tf htf hb0 hb1
    match tf with
    | none => exact le_of_eq rfl
    | some t =>
      have ht : 0 ≤ t := htf t rfl
      by_cases h0 : t = 0
      · subst h0
        have : combine_risk b (some 0) false = b := by
          simp [combine_risk, factorTruthy]
        rw [this]
      · have hk : combine_risk b (some t) false = clamp (b + t) 0 1 := by
          simp [combine_risk, factorTruthy, h0]
        rw [hk]
        unfold clamp
        exact (le_min (by linarith) hb1).trans (le_max_right 0 _)

/-- C10 witness: the theorem applied at base 0.5, with the zero external
signal and with keyword signal 0.2. -/
theorem C10_zero_signal_blend_witness :
    combine_risk 0.5 (some 0) true < 0.5 ∧
    (0.5:ℚ) ≤ combine_risk 0.5 (some 0.2) false := by
  have h := C10_zero_signal_blend 0.5
  refine ⟨h.2.1 (by norm_num) (by norm_num),
    h.2.2 (some 0.2) ?_ (by norm_num) (by norm_num)⟩
  intro t ht
  cases ht
  norm_num

end FascitisApp
